import Mathlib

/-
Verification of the emergency-symptom-urgency triage core of the Pawsitive
dog-health web application.

The definitions below are a shallow embedding of the TypeScript source:
  * the EmergencyAssessment React component (symptom taxonomy lists,
    handleSymptomCheck, performAIAssessment, resetAssessment, toggleSymptom,
    getRecommendation, and the step-indexed dialog UI),
  * the Gemini wrapper functions (analyzeSymptoms, analyzeHealthPhoto,
    performEmergencyAssessment) and their response-acceptance logic,
  * the Express AI routes (age computation from birth date),
  * the batch photo-analysis loop of the health-entry header component.

JavaScript runtime facts are modelled explicitly: `undefined`/absent values
become `Option`, thrown exceptions become `Except`, and `Math.floor` over a
millisecond difference becomes integer floor division.
-/

namespace PawCare

/-- Urgency buckets of the triage taxonomy, as in the union type
`"emergency" | "urgent" | "routine"` of the component state. -/
inductive Urgency where
  | emergency
  | urgent
  | routine
deriving DecidableEq, Repr, Fintype

open Urgency

/-- The canned emergency-bucket symptom phrases (component, lines 15-26). -/
def emergencySymptoms : List String :=
  [ "Difficulty breathing or gasping"
  , "Seizures or convulsions"
  , "Loss of consciousness or collapse"
  , "Severe bleeding"
  , "Suspected poisoning"
  , "Severe vomiting or diarrhea"
  , "Unable to urinate or defecate"
  , "Signs of severe pain"
  , "Pale or blue gums"
  , "Severe lethargy or unresponsiveness" ]

/-- The canned urgent-bucket symptom phrases (component, lines 28-39). -/
def urgentSymptoms : List String :=
  [ "Persistent vomiting"
  , "Loss of appetite for 24+ hours"
  , "Unusual lethargy"
  , "Limping or difficulty moving"
  , "Excessive thirst or urination"
  , "Coughing or breathing changes"
  , "Skin irritation or rash"
  , "Behavioral changes"
  , "Eye discharge or redness"
  , "Minor wounds or cuts" ]

/-- The canned routine-bucket symptom phrases (component, lines 41-52). -/
def routineSymptoms : List String :=
  [ "Minor scratching"
  , "Slight change in appetite"
  , "Mild lethargy after exercise"
  , "Minor behavioral quirks"
  , "Regular grooming needs"
  , "Routine check-up items"
  , "Preventive care questions"
  , "Diet or exercise concerns"
  , "Training or behavior tips"
  , "General wellness questions" ]

/-- The taxonomy table: the bucket a canned phrase belongs to.  The UI passes
the bucket of the list a clicked button sits in, so a phrase drawn from one of
the three lists is tagged with the bucket of that list. -/
def symptomBucket (s : String) : Option Urgency :=
  if s ∈ emergencySymptoms then some emergency
  else if s ∈ urgentSymptoms then some urgent
  else if s ∈ routineSymptoms then some routine
  else none

/-- The urgency update performed inside `handleSymptomCheck` (lines 96-102):
`if (category === "emergency" || urgency === null) urgency = category;
 else if (category === "urgent" && urgency === "routine") urgency = "urgent";`
with the unchanged value kept otherwise. -/
def classify (currentUrgency : Option Urgency) (category : Urgency) :
    Option Urgency :=
  if category = emergency ∨ currentUrgency = none then some category
  else if category = urgent ∧ currentUrgency = some routine then some urgent
  else currentUrgency

/-- Modelled from the spec, for comparison with `classify`: the four rules of
section 4.2 in the order the spec lists them (null gives the new bucket;
emergency absorbs; urgent over routine upgrades; otherwise no change). -/
def classifySpec (currentUrgency : Option Urgency) (newBucket : Urgency) :
    Urgency :=
  match currentUrgency with
  | none => newBucket
  | some cu =>
    if newBucket = emergency then emergency
    else if newBucket = urgent ∧ cu = routine then urgent
    else cu

/-- Numeric severity rank of a bucket: emergency > urgent > routine. -/
def priority : Urgency → Nat
  | emergency => 3
  | urgent => 2
  | routine => 1

/-- Severity rank extended to the nullable aggregate (null below routine). -/
def priorityOpt : Option Urgency → Nat
  | none => 0
  | some u => priority u

/-- The higher-priority of two buckets (left argument wins ties). -/
def bucketMax (a b : Urgency) : Urgency :=
  if priority a < priority b then b else a

/-- A JSON value, used to model bodies produced by `JSON.parse` before any
shape check.  Numbers are modelled as integers; the schema checks below only
inspect type tags and string enumerations, never numeric magnitude. -/
inductive Json where
  | str (s : String)
  | num (n : Int)
  | jbool (b : Bool)
  | null
  | arr (elems : List Json)
  | obj (fields : List (String × Json))

/-- Field lookup on a JSON object; `none` models the JavaScript `undefined`
read on a missing property or a non-object. -/
def Json.getField : Json → String → Option Json
  | .obj fields, key => fields.lookup key
  | _, _ => none

/-- The four free-text vital-sign fields of the component state. -/
structure VitalSigns where
  breathing : String
  heartRate : String
  temperature : String
  gumColor : String
deriving DecidableEq, Repr

/-- The `assessment` state object of the component: the clicked symptoms and
the aggregate urgency (null before the first click). -/
structure Assessment where
  symptoms : List String
  urgency : Option Urgency
deriving DecidableEq, Repr

/-- The React state of the EmergencyAssessment component: one `useState` slot
per field, in source order.  `aiAssessment` holds the raw JSON value the
client stored from the AI response (unvalidated). -/
structure SessionState where
  isOpen : Bool
  currentStep : Nat
  selectedDogId : String
  selectedSymptoms : List String
  duration : String
  severity : String
  currentBehavior : String
  vitalSigns : VitalSigns
  aiAssessment : Option Json
  assessment : Assessment

/-- The initial `useState` values: dialog closed, step 0, empty strings and
lists, no AI result, no symptoms, null urgency. -/
def initialState : SessionState :=
  { isOpen := false
  , currentStep := 0
  , selectedDogId := ""
  , selectedSymptoms := []
  , duration := ""
  , severity := ""
  , currentBehavior := ""
  , vitalSigns := { breathing := "", heartRate := "", temperature := "", gumColor := "" }
  , aiAssessment := none
  , assessment := { symptoms := [], urgency := none } }

/-- The `startAssessment` handler (lines 88-92): opens the dialog, returns to
step 0 and clears `assessment` — but clears neither `selectedSymptoms` nor
any other field. -/
def startAssessment (st : SessionState) : SessionState :=
  { st with isOpen := true
          , currentStep := 0
          , assessment := { symptoms := [], urgency := none } }

/-- The `handleSymptomCheck` handler (lines 94-113): appends the clicked
symptom to `assessment.symptoms`, updates the aggregate urgency through
`classify`, also appends the symptom to `selectedSymptoms` (unconditionally),
and jumps to step 2. -/
def handleSymptomCheck (st : SessionState) (symptom : String)
    (category : Urgency) : SessionState :=
  { st with assessment :=
              { symptoms := st.assessment.symptoms ++ [symptom]
              , urgency := classify st.assessment.urgency category }
          , selectedSymptoms := st.selectedSymptoms ++ [symptom]
          , currentStep := 2 }

/-- The `resetAssessment` handler (lines 161-171): sets the step to 0 and
clears every assessment-related field. -/
def resetAssessment (st : SessionState) : SessionState :=
  { st with currentStep := 0
          , assessment := { symptoms := [], urgency := none }
          , selectedSymptoms := []
          , selectedDogId := ""
          , duration := ""
          , severity := ""
          , currentBehavior := ""
          , vitalSigns := { breathing := "", heartRate := "", temperature := "", gumColor := "" }
          , aiAssessment := none }

/-- The list update of the `toggleSymptom` handler (lines 173-179): filter the
phrase out when present, append it at the end when absent. -/
def toggleSymptom (prev : List String) (symptom : String) : List String :=
  if symptom ∈ prev then prev.filter (fun s => s ≠ symptom)
  else prev ++ [symptom]

/-- The `toggleSymptom` handler lifted to the component state. -/
def toggleSymptomState (st : SessionState) (symptom : String) : SessionState :=
  { st with selectedSymptoms := toggleSymptom st.selectedSymptoms symptom }

/-- The recommendation descriptor returned by `getRecommendation`. -/
structure Recommendation where
  title : String
  description : String
  action : String
  color : String
  bgColor : String
deriving DecidableEq, Repr

/-- The `getRecommendation` mapper (lines 181-210): a pure switch over the
aggregate urgency, returning null when the urgency is null. -/
def getRecommendation (urgency : Option Urgency) : Option Recommendation :=
  match urgency with
  | some emergency => some
      { title := "🚨 Emergency Care Needed"
      , description := "Contact your emergency vet or animal hospital immediately. These symptoms require immediate professional attention."
      , action := "Call Emergency Vet Now"
      , color := "text-destructive"
      , bgColor := "bg-destructive/10" }
  | some urgent => some
      { title := "⚠️ Urgent Veterinary Care"
      , description := "Schedule an appointment with your vet within the next 24-48 hours. Monitor symptoms closely."
      , action := "Schedule Vet Visit"
      , color := "text-chart-4"
      , bgColor := "bg-chart-4/10" }
  | some routine => some
      { title := "📅 Routine Care"
      , description := "These concerns can typically wait for your next routine appointment. Continue monitoring and note any changes."
      , action := "Schedule Routine Visit"
      , color := "text-accent"
      , bgColor := "bg-accent/10" }
  | none => none

/-- User events the rendered dialog can emit.  Which handler a button invokes
is read off the JSX of the component. -/
inductive UIEvent where
  | start
  | continueIntro
  | check (symptom : String) (category : Urgency)
  | startOver
  | close
  | toggle (symptom : String)
deriving DecidableEq, Repr

/-- One UI event applied to the component state.  Guards encode when the
corresponding button is rendered: the continue button only at step 0 of an
open dialog, the symptom buttons only at step 1 (each passing the bucket of
the list it sits in), the start-over button only on the step-2 results view
(which renders only when a recommendation exists), and close at any time.
`toggle` has no rendered trigger inside this component but is part of the
exposed surface. -/
def uiStep (st : SessionState) (e : UIEvent) : SessionState :=
  match e with
  | .start => startAssessment st
  | .continueIntro =>
      if st.isOpen = true ∧ st.currentStep = 0
      then { st with currentStep := 1 } else st
  | .check s c =>
      if st.isOpen = true ∧ st.currentStep = 1 ∧ symptomBucket s = some c
      then handleSymptomCheck st s c else st
  | .startOver =>
      if st.isOpen = true ∧ st.currentStep = 2 ∧
         (getRecommendation st.assessment.urgency).isSome = true
      then resetAssessment st else st
  | .close => { st with isOpen := false }
  | .toggle s => toggleSymptomState st s

/-- A sequence of UI events applied in order. -/
def runUI (st : SessionState) (es : List UIEvent) : SessionState :=
  es.foldl uiStep st

/-- A sequence of symptom clicks (phrase paired with the bucket of the list
it was clicked in) applied through `handleSymptomCheck`. -/
def runChecks (st : SessionState) (ps : List (String × Urgency)) :
    SessionState :=
  ps.foldl (fun s p => handleSymptomCheck s p.1 p.2) st

/-- The error taxonomy of the AI endpoints: 400 on missing input, 404 on an
unknown dog, 500 on any failure of the generative-model call. -/
inductive AssessmentError where
  | validationError (msg : String)
  | notFoundError (msg : String)
  | externalServiceError (msg : String)
deriving DecidableEq, Repr

/-- Whether a string is empty or consists only of whitespace — exactly the
strings on which the JavaScript test `rawJson.trim() === ""` succeeds
(trimming leading and trailing whitespace yields the empty string iff every
character is whitespace). -/
def isBlank (s : String) : Bool :=
  s.data.all (fun c => c.isWhitespace)

/-- The response-acceptance logic shared by `analyzeSymptoms`,
`analyzeHealthPhoto` and `performEmergencyAssessment` in the Gemini wrapper
(lines 95-107, 174-186, 281-293): `rawJson` is `response.text` (none models
an undefined body), `parsed` is the outcome of `JSON.parse rawJson` (none
models a parse exception).  An undefined or blank body and a parse failure
each raise an error, which the Express route classifies as a 500
external-service failure; a successfully parsed value is returned as the
result — the code performs no shape validation of its own after parsing. -/
def geminiAccept (rawJson : Option String) (parsed : Option Json) :
    Except AssessmentError Json :=
  match rawJson with
  | none => .error (.externalServiceError "Empty response from Gemini model")
  | some raw =>
    if isBlank raw then
      .error (.externalServiceError "Empty response from Gemini model")
    else
      match parsed with
      | none => .error (.externalServiceError "Invalid JSON response from Gemini")
      | some analysis => .ok analysis

/-- Whether a JSON value is a string. -/
def Json.isStr : Json → Bool
  | .str _ => true
  | _ => false

/-- Whether a JSON value is an array of strings. -/
def Json.isStrArr : Json → Bool
  | .arr elems => elems.all Json.isStr
  | _ => false

/-- Conformance to the declared EmergencyAssessment response schema
(wrapper, lines 265-276): all six required fields present with the declared
types, `urgencyLevel` drawn from its enumeration. -/
def conformsEmergencySchema (j : Json) : Bool :=
  (match j.getField "urgencyLevel" with
   | some (.str s) => ["non-urgent", "urgent", "emergency"].contains s
   | _ => false)
  && (match j.getField "timeFrame" with
      | some v => v.isStr
      | none => false)
  && (match j.getField "reasoning" with
      | some v => v.isStr
      | none => false)
  && (match j.getField "immediateActions" with
      | some v => v.isStrArr
      | none => false)
  && (match j.getField "redFlags" with
      | some v => v.isStrArr
      | none => false)
  && (match j.getField "vetRequired" with
      | some (.jbool _) => true
      | _ => false)

/-- The client `performAIAssessment` handler (component, lines 115-159)
applied to the outcome of the network call.  When the dog or the symptom list
is missing it returns early (a toast only).  On a successful response it
stores the `assessment` property of the response body and advances to step 3;
on any rejection the catch block shows a toast and leaves every state field
unchanged. -/
def performAIAssessment (st : SessionState)
    (outcome : Except AssessmentError Json) : SessionState :=
  if st.selectedDogId = "" ∨ st.selectedSymptoms = [] then st
  else
    match outcome with
    | .ok result =>
        { st with aiAssessment := result.getField "assessment"
                , currentStep := 3 }
    | .error _ => st

/-- Milliseconds in the 365-day year used by the routes:
`1000 * 60 * 60 * 24 * 365`. -/
def msPerYear : Int := 1000 * 60 * 60 * 24 * 365

/-- The age computation of the AI routes:
`Math.floor((Date.now() - new Date(dog.birthDate).getTime()) / (1000*60*60*24*365))`.
`Int.fdiv` is floor division, exactly `Math.floor` of the real quotient. -/
def dogAgeYears (nowMs birthMs : Int) : Int :=
  Int.fdiv (nowMs - birthMs) msPerYear

/-- The age value the routes place in the model request: undefined when the
dog has no birth date, the floored year count otherwise. -/
def routeDogAge (nowMs : Int) (birthDate : Option Int) : Option Int :=
  birthDate.map (fun b => dogAgeYears nowMs b)

/-- The batch photo-analysis loop of `analyzePhotos` (header component,
lines 304-351), restricted to the resolved-fetch path: for each submitted
image the element holds the parsed analysis when the response was ok and
`none` when it was not (`if (response.ok)` guards the push; a non-ok
response is skipped and the loop continues).  The aggregate delivered via
`setPhotoAnalyses` is the accumulated list. -/
def analyzePhotos (responses : List (Option Json)) : List Json :=
  responses.foldl
    (fun analyses r =>
      match r with
      | some analysis => analyses ++ [analysis]
      | none => analyses)
    []

/-- C1. The classifier of `handleSymptomCheck` agrees with the four spec
rules on every pair of current aggregate (possibly null) and new bucket. -/
theorem classify_matches_spec_rules :
    ∀ (cu : Option Urgency) (nb : Urgency),
      classify cu nb = some (classifySpec cu nb) := by
  decide

theorem classify_none_eq :
    ∀ (b : Urgency), classify none b = some b := by
  decide

theorem classify_some_eq_bucketMax :
    ∀ (a b : Urgency), classify (some a) b = some (bucketMax a b) := by
  decide

theorem priority_le_bucketMax_left :
    ∀ (b c : Urgency), priority b ≤ priority (bucketMax b c) := by
  decide

theorem priority_le_bucketMax_right :
    ∀ (b c : Urgency), priority c ≤ priority (bucketMax b c) := by
  decide

theorem classify_mono :
    ∀ (cu : Option Urgency) (b : Urgency),
      priorityOpt cu ≤ priorityOpt (classify cu b) := by
  decide

theorem runChecks_urgency_eq_foldl :
    ∀ (ps : List (String × Urgency)) (st : SessionState),
      (runChecks st ps).assessment.urgency
        = ps.foldl (fun u p => classify u p.2) st.assessment.urgency := by
  intro ps
  induction ps with
  | nil => intro st; rfl
  | cons p rest ih =>
      intro st
      have hstep : runChecks st (p :: rest)
          = runChecks (handleSymptomCheck st p.1 p.2) rest := rfl
      rw [hstep, ih]
      rfl

theorem foldl_classify_eq_foldl_bucketMax :
    ∀ (l : List Urgency) (b : Urgency),
      l.foldl classify (some b) = some (l.foldl bucketMax b) := by
  intro l
  induction l with
  | nil => intro b; rfl
  | cons c l ih =>
      intro b
      have h : (c :: l).foldl classify (some b)
          = l.foldl classify (classify (some b) c) := rfl
      rw [h, classify_some_eq_bucketMax, ih]
      rfl

theorem foldl_bucketMax_mem :
    ∀ (l : List Urgency) (b : Urgency), l.foldl bucketMax b ∈ b :: l := by
  intro l
  induction l with
  | nil => intro b; simp [List.foldl]
  | cons c l ih =>
      intro b
      have h := ih (bucketMax b c)
      have hbc : bucketMax b c = b ∨ bucketMax b c = c := by
        unfold bucketMax; split <;> simp
      have hfold : (c :: l).foldl bucketMax b
          = l.foldl bucketMax (bucketMax b c) := rfl
      rw [hfold]
      rcases List.mem_cons.mp h with h1 | h1
      · rcases hbc with h2 | h2 <;> rw [h1, h2] <;> simp
      · simp [h1]

theorem le_priority_foldl_bucketMax :
    ∀ (l : List Urgency) (b x : Urgency),
      x ∈ b :: l → priority x ≤ priority (l.foldl bucketMax b) := by
  intro l
  induction l with
  | nil =>
      intro b x hx
      have : x = b := by simpa using hx
      simp [this, List.foldl]
  | cons c l ih =>
      intro b x hx
      have hfold : (c :: l).foldl bucketMax b
          = l.foldl bucketMax (bucketMax b c) := rfl
      rw [hfold]
      have hhead : priority (bucketMax b c)
          ≤ priority (l.foldl bucketMax (bucketMax b c)) :=
        ih (bucketMax b c) (bucketMax b c) (List.mem_cons_self _ _)
      have hb : priority b ≤ priority (bucketMax b c) :=
        priority_le_bucketMax_left b c
      have hc : priority c ≤ priority (bucketMax b c) :=
        priority_le_bucketMax_right b c
      rcases List.mem_cons.mp hx with h1 | h1
      · exact le_trans (h1 ▸ hb) hhead
      · rcases List.mem_cons.mp h1 with h2 | h2
        · exact le_trans (h2 ▸ hc) hhead
        · exact ih (bucketMax b c) x (List.mem_cons_of_mem _ h2)

/-- C2. For a nonempty sequence of canned-symptom clicks from the fresh
session, the derived urgency equals the highest-priority bucket among the
clicked buckets: it is the fold of the pairwise maximum, that fold is one of
the clicked buckets and bounds them all from above, and a single `classify`
step never lowers the severity rank. -/
theorem derivedUrgency_is_highest_bucket :
    ∀ (p : String × Urgency) (rest : List (String × Urgency)),
      (∀ q ∈ p :: rest, symptomBucket q.1 = some q.2) →
      ((runChecks initialState (p :: rest)).assessment.urgency
          = some ((rest.map Prod.snd).foldl bucketMax p.2))
      ∧ ((rest.map Prod.snd).foldl bucketMax p.2 ∈ (p :: rest).map Prod.snd)
      ∧ (∀ q ∈ p :: rest,
           priority q.2 ≤ priority ((rest.map Prod.snd).foldl bucketMax p.2))
      ∧ (∀ (cu : Option Urgency) (b : Urgency),
           priorityOpt cu ≤ priorityOpt (classify cu b)) := by
  intro p rest _hcanned
  refine ⟨?_, ?_, ?_, classify_mono⟩
  · rw [runChecks_urgency_eq_foldl]
    have hmap : ((p :: rest).map Prod.snd).foldl classify none
        = (p :: rest).foldl (fun u q => classify u q.2) none :=
      List.foldl_map Prod.snd classify (p :: rest) none
    rw [show (initialState.assessment.urgency = none) from rfl, ← hmap]
    have hhead : ((p :: rest).map Prod.snd).foldl classify none
        = (rest.map Prod.snd).foldl classify (classify none p.2) := rfl
    rw [hhead, classify_none_eq, foldl_classify_eq_foldl_bucketMax]
  · have h := foldl_bucketMax_mem (rest.map Prod.snd) p.2
    simpa using h
  · intro q hq
    have hq2 : q.2 ∈ p.2 :: rest.map Prod.snd := by
      rcases List.mem_cons.mp hq with h1 | h1
      · simp [h1]
      · exact List.mem_cons_of_mem _ (List.mem_map_of_mem Prod.snd h1)
    exact le_priority_foldl_bucketMax (rest.map Prod.snd) p.2 q.2 hq2

/-- Witness for C2: the escalation scenario — clicking "Minor scratching"
(routine) then "Persistent vomiting" (urgent) yields derived urgency urgent. -/
theorem derivedUrgency_is_highest_bucket_witness :
    (runChecks initialState
        [("Minor scratching", Urgency.routine),
         ("Persistent vomiting", Urgency.urgent)]).assessment.urgency
      = some Urgency.urgent := by
  have h := derivedUrgency_is_highest_bucket
    ("Minor scratching", Urgency.routine)
    [("Persistent vomiting", Urgency.urgent)]
    (by decide)
  exact h.1.trans (by decide)

/-- Counterexample for C3: after a symptom has been selected (step 2), the
start-over handler puts the session at step 0, not at step 1 as the claim
states. -/
theorem resetAssessment_step_cex :
    (resetAssessment (runUI initialState
        [UIEvent.start, UIEvent.continueIntro,
         UIEvent.check "Severe bleeding" Urgency.emergency])).currentStep = 0
    ∧ (resetAssessment (runUI initialState
        [UIEvent.start, UIEvent.continueIntro,
         UIEvent.check "Severe bleeding" Urgency.emergency])).currentStep
        ≠ 1 := by
  constructor
  · rfl
  · decide

/-- C3 amended. The start-over handler clears the selected symptoms, the
derived urgency, every free-text field (duration, severity, current behavior,
the four vital signs), the selected dog and the stored AI result, and puts
the session at step 0 (the intro), not step 1. -/
theorem resetAssessment_resets_to_intro :
    ∀ st : SessionState,
      (resetAssessment st).selectedSymptoms = []
      ∧ (resetAssessment st).assessment.symptoms = []
      ∧ (resetAssessment st).assessment.urgency = none
      ∧ (resetAssessment st).duration = ""
      ∧ (resetAssessment st).severity = ""
      ∧ (resetAssessment st).currentBehavior = ""
      ∧ (resetAssessment st).vitalSigns
          = { breathing := "", heartRate := "", temperature := "", gumColor := "" }
      ∧ (resetAssessment st).selectedDogId = ""
      ∧ (resetAssessment st).aiAssessment = none
      ∧ (resetAssessment st).currentStep = 0 := by
  intro st
  exact ⟨rfl, rfl, rfl, rfl, rfl, rfl, rfl, rfl, rfl, rfl⟩

/-- C4. The presentation mapper is total on the three urgency values and
returns the fixed descriptor table; as a Lean function it is definitionally
deterministic, so two calls with the same urgency yield identical
descriptors. -/
theorem getRecommendation_total_fixed_table :
    getRecommendation (some Urgency.emergency) = some
      { title := "🚨 Emergency Care Needed"
      , description := "Contact your emergency vet or animal hospital immediately. These symptoms require immediate professional attention."
      , action := "Call Emergency Vet Now"
      , color := "text-destructive"
      , bgColor := "bg-destructive/10" }
    ∧ getRecommendation (some Urgency.urgent) = some
      { title := "⚠️ Urgent Veterinary Care"
      , description := "Schedule an appointment with your vet within the next 24-48 hours. Monitor symptoms closely."
      , action := "Schedule Vet Visit"
      , color := "text-chart-4"
      , bgColor := "bg-chart-4/10" }
    ∧ getRecommendation (some Urgency.routine) = some
      { title := "📅 Routine Care"
      , description := "These concerns can typically wait for your next routine appointment. Continue monitoring and note any changes."
      , action := "Schedule Routine Visit"
      , color := "text-accent"
      , bgColor := "bg-accent/10" } :=
  ⟨rfl, rfl, rfl⟩

/-- C10. `toggleSymptom` filters out every occurrence of a present phrase and
appends an absent phrase at the end; for a list not containing the phrase,
toggling twice restores the original list. -/
theorem toggleSymptom_filter_append_roundtrip :
    ∀ (l : List String) (s : String),
      (s ∈ l → toggleSymptom l s = l.filter (fun x => x ≠ s))
      ∧ (s ∉ l →
          toggleSymptom l s = l ++ [s]
          ∧ toggleSymptom (toggleSymptom l s) s = l) := by
  intro l s
  constructor
  · intro h
    simp [toggleSymptom, h]
  · intro h
    have h1 : toggleSymptom l s = l ++ [s] := by simp [toggleSymptom, h]
    refine ⟨h1, ?_⟩
    rw [h1]
    have hs : s ∈ l ++ [s] := by simp
    have h2 : l.filter (fun x => x ≠ s) = l :=
      List.filter_eq_self.mpr (fun a ha => by
        simp only [ne_eq, decide_eq_true_eq]
        exact ne_of_mem_of_not_mem ha h)
    simp [toggleSymptom, hs, List.filter_append, h2]
    intro a ha
    exact ne_of_mem_of_not_mem ha h

/-- C5. Every failure mode of the model call — undefined body, blank body,
JSON parse failure — resolves to an external-service error and never to a
result; a parse failure never yields an accepted value; every error produced
by the acceptance logic is the external-service classification; and the
client handler applied to an erroneous outcome leaves the entire session
state (step, local result and all other fields) unchanged. -/
theorem aiFailure_classified_and_state_preserved :
    (∀ (parsed : Option Json),
       geminiAccept none parsed
         = .error (.externalServiceError "Empty response from Gemini model"))
    ∧ (∀ (raw : String) (parsed : Option Json), isBlank raw = true →
        geminiAccept (some raw) parsed
          = .error (.externalServiceError "Empty response from Gemini model"))
    ∧ (∀ (raw : Option String) (j : Json), geminiAccept raw none ≠ .ok j)
    ∧ (∀ (raw : Option String) (parsed : Option Json) (e : AssessmentError),
        geminiAccept raw parsed = .error e →
        ∃ msg, e = .externalServiceError msg)
    ∧ (∀ (st : SessionState) (e : AssessmentError),
        performAIAssessment st (.error e) = st) := by
  refine ⟨?_, ?_, ?_, ?_, ?_⟩
  · intro parsed; rfl
  · intro raw parsed h
    simp [geminiAccept, h]
  · intro raw j
    cases raw with
    | none => simp [geminiAccept]
    | some raw =>
        cases hb : isBlank raw <;> simp [geminiAccept, hb]
  · intro raw parsed e h
    cases raw with
    | none =>
        simp [geminiAccept] at h
        exact ⟨"Empty response from Gemini model", h.symm⟩
    | some raw =>
        cases hb : isBlank raw with
        | true =>
            simp [geminiAccept, hb] at h
            exact ⟨"Empty response from Gemini model", h.symm⟩
        | false =>
            cases parsed with
            | none =>
                simp [geminiAccept, hb] at h
                exact ⟨"Invalid JSON response from Gemini", h.symm⟩
            | some a => simp [geminiAccept, hb] at h
  · intro st e
    unfold performAIAssessment
    split <;> rfl

/-- Witness for C5: a present but blank response body is classified as an
external-service error, the error carries the external-service tag, and
feeding an erroneous outcome to the client handler leaves the fresh session
state untouched. -/
theorem aiFailure_witness :
    geminiAccept (some "") none
      = .error (.externalServiceError "Empty response from Gemini model")
    ∧ (∃ msg, AssessmentError.externalServiceError
        "Empty response from Gemini model" = .externalServiceError msg)
    ∧ performAIAssessment initialState
        (.error (.externalServiceError "Empty response from Gemini model"))
      = initialState := by
  have h := aiFailure_classified_and_state_preserved
  refine ⟨h.2.1 "" none rfl, ?_, h.2.2.2.2 initialState _⟩
  exact h.2.2.2.1 (some "") none _ (h.2.1 "" none rfl)

/-- Counterexample for C6: the body consisting of an empty JSON object is
parsed successfully and returned as the accepted result, although it fails
the declared EmergencyAssessment response schema (all six required fields
missing) — the code never validates shape after parsing. -/
theorem geminiAccept_no_shape_validation_cex :
    geminiAccept (some "\x7b\x7d") (some (Json.obj [])) = .ok (Json.obj [])
    ∧ conformsEmergencySchema (Json.obj []) = false := by
  constructor
  · rfl
  · rfl

/-- C6 amended. Every accepted model response had a present, non-blank body
that parsed as JSON, and the accepted value is exactly the parse result:
no local validation against the declared result shape is applied, so a
JSON body that does not conform to the shape is still returned. -/
theorem geminiAccept_returns_parse_result_unvalidated :
    ∀ (raw : Option String) (parsed : Option Json) (j : Json),
      geminiAccept raw parsed = .ok j →
      ∃ s, raw = some s ∧ isBlank s = false ∧ parsed = some j := by
  intro raw parsed j h
  cases raw with
  | none => simp [geminiAccept] at h
  | some s =>
      cases hb : isBlank s with
      | true => simp [geminiAccept, hb] at h
      | false =>
          cases parsed with
          | none => simp [geminiAccept, hb] at h
          | some a =>
              simp [geminiAccept, hb] at h
              exact ⟨s, rfl, hb, by rw [h]⟩

/-- Witness for C6 amended: the empty-object body is accepted, so its parse
result is returned exactly as parsed. -/
theorem geminiAccept_unvalidated_witness :
    ∃ s, (some "\x7b\x7d" : Option String) = some s ∧ isBlank s = false
      ∧ (some (Json.obj []) : Option Json) = some (Json.obj []) :=
  geminiAccept_returns_parse_result_unvalidated
    (some "\x7b\x7d") (some (Json.obj [])) (Json.obj []) rfl

theorem fdiv_eq_ediv_of_ofNat :
    ∀ (a : Int) (n : Nat), Int.fdiv a (Int.ofNat n) = a / Int.ofNat n := by
  intro a n
  match a, n with
  | Int.ofNat 0, n =>
      show Int.fdiv 0 (Int.ofNat n) = Int.ediv (Int.ofNat 0) (Int.ofNat n)
      simp [Int.fdiv, Int.ediv, Nat.zero_div]
  | Int.ofNat (m + 1), n => rfl
  | Int.negSucc m, 0 => rfl
  | Int.negSucc m, (n + 1) => rfl

/-- C7. The age the routes send to the model is the integer floor of the
elapsed milliseconds divided by the 365-day year: it is characterized by the
floor bounds on every pair of timestamps, a birth date exactly 2 years and
11 months before now (1065 days, e.g. 2023-11-11 to 2026-10-11) yields age 2
by truncation, and a dog without a birth date gets no age. -/
theorem dogAge_is_floor_of_elapsed_years :
    (∀ (nowMs birthMs : Int),
       msPerYear * dogAgeYears nowMs birthMs ≤ nowMs - birthMs
       ∧ nowMs - birthMs < msPerYear * (dogAgeYears nowMs birthMs + 1))
    ∧ routeDogAge (1065 * 86400000) (some 0) = some 2
    ∧ routeDogAge 0 none = none := by
  refine ⟨?_, by decide, rfl⟩
  intro nowMs birthMs
  have hconv : dogAgeYears nowMs birthMs = (nowMs - birthMs) / msPerYear := by
    unfold dogAgeYears msPerYear
    exact fdiv_eq_ediv_of_ofNat (nowMs - birthMs) 31536000000
  rw [hconv]
  unfold msPerYear
  constructor <;> omega

theorem analyzePhotos_foldl_acc :
    ∀ (rs : List (Option Json)) (acc : List Json),
      rs.foldl
        (fun analyses r =>
          match r with
          | some analysis => analyses ++ [analysis]
          | none => analyses)
        acc
      = acc ++ rs.filterMap id := by
  intro rs
  induction rs with
  | nil => intro acc; simp
  | cons r rs ih =>
      intro acc
      cases r with
      | some a => simp [List.foldl, ih, List.filterMap_cons]
      | none => simp [List.foldl, ih, List.filterMap_cons]

/-- Counterexample for C8: for three submitted images of which the second
fails (non-ok response), the delivered aggregate is exactly the two parsed
analyses and is indistinguishable from the aggregate of a two-image batch
with no failure — the code reports no failure at all, contradicting the
claimed failure report. -/
theorem analyzePhotos_no_failure_report_cex :
    analyzePhotos
        [some (Json.str "analysis-1"), none, some (Json.str "analysis-2")]
      = [Json.str "analysis-1", Json.str "analysis-2"]
    ∧ analyzePhotos
        [some (Json.str "analysis-1"), none, some (Json.str "analysis-2")]
      = analyzePhotos
        [some (Json.str "analysis-1"), some (Json.str "analysis-2")] :=
  ⟨rfl, rfl⟩

/-- C8 amended. A failed image does not abort or discard the analyses of the
other images: the aggregate is exactly the successful analyses in submission
order (the filter of the ok responses), and removing a failed entry from the
batch leaves the aggregate unchanged — failures are silently omitted, with
no failure report in the delivered result. -/
theorem analyzePhotos_partial_success :
    (∀ (rs : List (Option Json)), analyzePhotos rs = rs.filterMap id)
    ∧ (∀ (rs1 rs2 : List (Option Json)),
        analyzePhotos (rs1 ++ none :: rs2)
          = analyzePhotos rs1 ++ analyzePhotos rs2) := by
  have hbase : ∀ (rs : List (Option Json)),
      analyzePhotos rs = rs.filterMap id := by
    intro rs
    unfold analyzePhotos
    simpa using analyzePhotos_foldl_acc rs []
  refine ⟨hbase, ?_⟩
  intro rs1 rs2
  rw [hbase, hbase, hbase]
  simp [List.filterMap_append, List.filterMap_cons]

/-- Counterexample for C9: a reachable UI run — open, continue, click
"Severe bleeding", close, reopen (which does not clear `selectedSymptoms`),
continue, click "Severe bleeding" again — leaves the same phrase twice in
`selectedSymptoms`. -/
theorem selectedSymptoms_duplicate_cex :
    (runUI initialState
        [UIEvent.start, UIEvent.continueIntro,
         UIEvent.check "Severe bleeding" Urgency.emergency,
         UIEvent.close, UIEvent.start, UIEvent.continueIntro,
         UIEvent.check "Severe bleeding" Urgency.emergency]).selectedSymptoms
      = ["Severe bleeding", "Severe bleeding"]
    ∧ ¬ (runUI initialState
        [UIEvent.start, UIEvent.continueIntro,
         UIEvent.check "Severe bleeding" Urgency.emergency,
         UIEvent.close, UIEvent.start, UIEvent.continueIntro,
         UIEvent.check "Severe bleeding" Urgency.emergency]).selectedSymptoms.Nodup := by
  constructor
  · rfl
  · decide

theorem toggleSymptom_preserves_nodup :
    ∀ (l : List String) (s : String), l.Nodup → (toggleSymptom l s).Nodup := by
  intro l s h
  unfold toggleSymptom
  split
  · exact h.filter _
  · rename_i hs
    simp [List.nodup_append, h]
    exact hs

/-- C9 amended. The toggle operation preserves the no-duplicates invariant of
`selectedSymptoms`: starting from any state whose selected-symptom list has
no duplicates (in particular the fresh or reset session), any sequence of
toggle operations leaves a list in which each phrase occurs at most once.
(The unconditional append of `handleSymptomCheck`, combined with
`startAssessment` not clearing `selectedSymptoms`, is what breaks the
original claim.) -/
theorem toggle_sequences_selected_nodup :
    ∀ (ss : List String) (st : SessionState),
      st.selectedSymptoms.Nodup →
      ((ss.foldl toggleSymptomState st).selectedSymptoms).Nodup := by
  intro ss
  induction ss with
  | nil => intro st h; exact h
  | cons s ss ih =>
      intro st h
      have hstep : (s :: ss).foldl toggleSymptomState st
          = ss.foldl toggleSymptomState (toggleSymptomState st s) := rfl
      rw [hstep]
      exact ih (toggleSymptomState st s)
        (toggleSymptom_preserves_nodup st.selectedSymptoms s h)

/-- Witness for C9 amended: one toggle from the fresh session leaves the
single-element, duplicate-free list. -/
theorem toggle_sequences_selected_nodup_witness :
    ((["Severe bleeding"].foldl toggleSymptomState initialState).selectedSymptoms).Nodup :=
  toggle_sequences_selected_nodup ["Severe bleeding"] initialState (by decide)

/-- Witness for C10: toggling an absent phrase appends it, toggling it again
restores the original list. -/
theorem toggleSymptom_roundtrip_witness :
    toggleSymptom ["Minor scratching"] "Severe bleeding"
        = ["Minor scratching", "Severe bleeding"]
    ∧ toggleSymptom
        (toggleSymptom ["Minor scratching"] "Severe bleeding")
        "Severe bleeding"
        = ["Minor scratching"] := by
  have h := toggleSymptom_filter_append_roundtrip
    ["Minor scratching"] "Severe bleeding"
  have hn : "Severe bleeding" ∉ ["Minor scratching"] := by decide
  exact ⟨(h.2 hn).1, (h.2 hn).2⟩

end PawCare
